/-
Verification of the AI_Developer repository's ingestion pipeline and agent
graph against its specification.

Shallow embedding conventions:
* Python dicts with insertion order are modelled as association lists
  `List (Key × Value)` in insertion order; JSON objects have unique keys.
* A Python value that may be "not a mapping" is an `Option`: `none` models a
  non-dict runtime value (for example the list default in `dict.get`).
* Collaborator calls (OpenAI LLM, AWS clients, FAISS) are parameters of the
  embedded functions: the n-th response is supplied as an argument, `none`
  modelling a raised exception.
* The filesystem is an explicit `Fs` value listing existing directories and
  files with their (possibly malformed) contents.
-/
import Mathlib

set_option linter.unusedVariables false

namespace AIDev

/-! ### Python-level values shared by the Task3 conversation utilities -/

/-- A runtime value stored in the `recent_chats` dictionary.  The code itself
only ever inserts dicts of shape `{"question": q, "answer": a}`
(`chatDict`); any pre-existing value of another shape is opaque to
`update_recent_chats`, which never inspects the stored values (`other`). -/
inductive PyObj where
  | chatDict (question answer : String)
  | other (tag : Nat)
deriving DecidableEq, Repr

/-- Embedding of `Task3/utils/__init__.py::update_recent_chats`.

Source behaviour, line by line:
* `if not isinstance(recent_chats, Dict): recent_chats = {}` — the input is
  `Option (List PyObj)`: `some vs` is a dict whose values in insertion order
  are `vs`; `none` is any non-dict value and is reset to the empty dict.
* `chats = list(recent_chats.values()); chats.append({...strip()...})`.
* `chats = chats[-max_chats:]` — Python's negative slice: for `max_chats = 0`
  this is `chats[0:]`, the whole list, hence the `m = 0` case below.
* `{i + 1: chat for i, chat in enumerate(chats)}` — keys `1..len` in order,
  modelled by `enumerateFrom 1`. -/
def enumerateFrom (i : Nat) : List PyObj → List (Nat × PyObj)
  | [] => []
  | x :: xs => (i, x) :: enumerateFrom (i + 1) xs

/-- Python `str.strip()`: remove leading and trailing whitespace. -/
def pyStrip (s : String) : String :=
  String.mk (((s.data.dropWhile Char.isWhitespace).reverse.dropWhile
    Char.isWhitespace).reverse)

/-- Python `str.lower()`: lowercase every character. -/
def pyLower (s : String) : String :=
  String.mk (s.data.map Char.toLower)

/-- Python `str.endswith(suffix)`. -/
def pyEndsWith (s suffixStr : String) : Bool :=
  suffixStr.data.isSuffixOf s.data

/-- Left-to-right, non-overlapping replacement of `old` by `new`, as Python
`str.replace` does for a non-empty `old` (the only way it is used here).
The fuel argument (instantiated with the input length) only bounds the
recursion. -/
def pyReplaceAux (old new : List Char) : Nat → List Char → List Char
  | 0, cs => cs
  | _ + 1, [] => []
  | fuel + 1, c :: cs =>
    if old.isPrefixOf (c :: cs) then
      new ++ pyReplaceAux old new fuel ((c :: cs).drop old.length)
    else
      c :: pyReplaceAux old new fuel cs

/-- Python `s.replace(old, new)` for non-empty `old`. -/
def pyReplace (s old new : String) : String :=
  String.mk (pyReplaceAux old.data new.data s.data.length s.data)

def update_recent_chats (recent_chats : Option (List PyObj))
    (latest_question answer : String) (max_chats : Nat := 3) :
    List (Nat × PyObj) :=
  let chats := recent_chats.getD [] ++ [PyObj.chatDict (pyStrip latest_question) (pyStrip answer)]
  let kept := if max_chats = 0 then chats else chats.drop (chats.length - max_chats)
  enumerateFrom 1 kept

/-! ### Task3 agent state and graph nodes -/

/-- A retrieved document (LangChain `Document`): rendered content plus the
`source_file` / `patient_name` metadata attached by
`create_documents_from_json`. -/
structure Doc where
  page_content : String
  source_file : String
  patient_name : Option String
deriving DecidableEq, Repr

/-- Embedding of `Task3/agent_state.py::AgentState` (a `TypedDict`).
`conversation := none` models the `"conversation"` key being absent from the
state dict; `rephrased_question`/`generated_answer` at `none` model Python
`None` (or an absent key — `state.get` treats both alike); `documents := none`
models an absent/`None` documents channel. -/
structure AgentState where
  user_query : String
  rephrased_question : Option String
  conversation : Option (List (Nat × PyObj))
  tool_flag : Bool
  documents : Option (List Doc)
  proceed_to_generate : Bool
  generated_answer : Option String
deriving DecidableEq, Repr

/-- The structured LLM response of the rewriter (`QueryRewrite` schema). -/
structure QueryRewrite where
  rephrased_question : String
  tool_flag : Bool
deriving DecidableEq, Repr

/-- Embedding of `Task3/Agents/rewriter.py::query_rewriter`.

The LLM collaborator's response is the argument `llm`: `some r` is a
successful structured response, `none` a raised exception.  The source first
initializes `rephrased_question = None`, `conversation = {}` when the key is
absent, `tool_flag = False`, `generated_answer = None`; then the
`try/except Exception` block either installs the LLM response or — on any
exception — falls back to `rephrased_question = state.get("user_query", "")`
(`user_query` is always present in the embedded state) and
`tool_flag = False`.  The exception is swallowed, so the function is total. -/
def query_rewriter (state : AgentState) (llm : Option QueryRewrite) : AgentState :=
  let s1 : AgentState :=
    { state with
      rephrased_question := none
      conversation := some (state.conversation.getD [])
      tool_flag := false
      generated_answer := none }
  match llm with
  | some r => { s1 with rephrased_question := some r.rephrased_question, tool_flag := r.tool_flag }
  | none => { s1 with rephrased_question := some state.user_query, tool_flag := false }

/-- Embedding of `Task3/Agents/grader.py::doc_grader`.

One LLM call is issued per document; the collaborator's `response.score` for a
document is `grade d`.  The source iterates `state.get("documents")` — if the
key is absent/`None`, iteration raises `TypeError`, modelled by `none`.
A document is retained iff `response.score.strip().lower() == "yes"`; finally
`documents := retained` and `proceed_to_generate := len(retained) > 0`. -/
def doc_grader (state : AgentState) (grade : Doc → String) : Option AgentState :=
  match state.documents with
  | none => none
  | some docs =>
    let relavant_docs := docs.filter (fun d => pyLower (pyStrip (grade d)) = "yes")
    some { state with
            documents := some relavant_docs
            proceed_to_generate := relavant_docs.length > 0 }

/-- Embedding of `Task3/Agents/generation.py::answer_generation`.

`response_answer` is the LLM collaborator's `response.answer`.  The source
writes `state["generated_answer"] = response.answer` and then

  `state["conversation"] = update_recent_chats(
       recent_chats = state.get("messages", []), ...)`

`"messages"` is not a key of `AgentState` and no node ever writes it, so the
default `[]` — a list, not a dict — is always passed; `update_recent_chats`
resets a non-mapping input to `{}`, modelled by passing `none`.
`latest_question = state.get("rephrased_question")` is then `.strip()`ed:
if `rephrased_question` is `None` the source raises `AttributeError`,
modelled by returning `none`. -/
def answer_generation (state : AgentState) (response_answer : String) :
    Option AgentState :=
  match state.rephrased_question with
  | none => none
  | some q =>
    some { state with
            generated_answer := some response_answer
            conversation := some (update_recent_chats none q response_answer) }

/-- Embedding of `Task3/Agents/fallback.py::fallback_agent`: writes the fixed
apology and touches nothing else (in particular not `conversation`). -/
def fallback_agent (state : AgentState) : AgentState :=
  { state with
    generated_answer := some "I'm sorry, I couldn't find any relevant information to answer your question. Can you please provide more details." }

/-- Modelled from the spec: the router module `Task3/router/routes.py` is
imported by `Task3/graph.py` but is not among the provided sources; §4.9 of
the spec defines the single predicate `no_relevant_docs(state)`, which
returns `"generate_answer"` iff `state.proceed_to_generate` is true and
`state.documents` is non-empty, and `"fallback"` otherwise. -/
def no_relevant_docs (state : AgentState) : String :=
  if state.proceed_to_generate ∧ state.documents.getD [] ≠ [] then
    "generate_answer"
  else
    "fallback"

/-! ### Filesystem model shared by Task1/Task2/Task3 embeddings -/

/-- Parsed JSON content is kept abstract as the string-to-string mapping
documented for the pipeline artifacts. -/
abbrev Json := List (String × String)

/-- The content of a file on disk: bytes that parse as JSON, bytes that fail
to read / parse (`malformed`), or a persisted FAISS index holding its
documents. -/
inductive FileContent where
  | validJson (j : Json)
  | malformed
  | faissIndex (docs : List Doc)
deriving DecidableEq, Repr

/-- An explicit filesystem: the set of existing directories and the existing
files with their contents. -/
structure Fs where
  dirs : List String
  files : List (String × FileContent)
deriving DecidableEq, Repr

def Fs.fileAt (fs : Fs) (path : String) : Option FileContent :=
  (fs.files.find? (fun p => p.1 = path)).map Prod.snd

/-- Python `os.path.exists` / `Path.exists`: true for both files and directories. -/
def Fs.pathExists (fs : Fs) (path : String) : Bool :=
  path ∈ fs.dirs ∨ (fs.fileAt path).isSome

/-! ### Task1: work-set diffs and `open_file` -/

/-- The case-insensitive extension filter of
`Task1/utils.py::check_existing_extractions`:
`f.lower().endswith((".png", ".jpg", ".jpeg"))`. -/
def isAllowedImage (f : String) : Bool :=
  pyEndsWith (pyLower f) ".png" || pyEndsWith (pyLower f) ".jpg" || pyEndsWith (pyLower f) ".jpeg"

/-- Embedding of `Task1/utils.py::check_existing_extractions`.

`dirListing` is `os.listdir(image_folder_path)` in directory order;
`processed` is the parsed `processed_text.json`, `none` when the file does
not exist (then `processed_files = set()`).  Returns
`(to_process, already_processed)`. -/
def check_existing_extractions (dirListing : List String)
    (processed : Option Json) : List String × List String :=
  let all_images := dirListing.filter isAllowedImage
  let processed_files := (processed.getD []).map Prod.fst
  (all_images.filter (fun img => img ∉ processed_files),
   all_images.filter (fun img => img ∈ processed_files))

/-- Result record of `check_existing_comprehend`. -/
structure ComprehendDiff where
  to_analyze : List String
  already_analyzed : List String
  texts_to_analyze : Json
deriving DecidableEq, Repr

/-- Embedding of `Task1/components/comprehend.py::check_existing_comprehend`
(duplicated verbatim in `Task1/utils.py`).

`textract` is the parsed `processed_text.json` (`none`: file absent, the
function returns empty lists); `comprehend` is the parsed
`processed_entities.json` (`none`: `comprehend_keys = set()`).
`texts_to_analyze = {key: textract_data[key] for key in to_analyze}` is the
dict comprehension looking each key up in the Textract map. -/
def check_existing_comprehend (textract comprehend : Option Json) :
    ComprehendDiff :=
  match textract with
  | none => ⟨[], [], []⟩
  | some textract_data =>
    let textract_keys := textract_data.map Prod.fst
    let comprehend_keys := (comprehend.getD []).map Prod.fst
    let to_analyze := textract_keys.filter (fun k => k ∉ comprehend_keys)
    let already_analyzed := textract_keys.filter (fun k => k ∈ comprehend_keys)
    let texts_to_analyze :=
      to_analyze.filterMap (fun k => (textract_data.lookup k).map (fun v => (k, v)))
    ⟨to_analyze, already_analyzed, texts_to_analyze⟩

/-- The Python exception kinds the embedded Task1/Task3 functions can raise.
`faissLoad` is the error FAISS's `load_local` raises when the index files are
missing inside an existing directory — a different exception from the
`FileNotFoundError` that `FAISSRetriever.load_index` itself guards with. -/
inductive PyError where
  | fileNotFound (msg : String)
  | faissLoad (msg : String)
  | valueError (msg : String)
deriving DecidableEq, Repr

/-- Embedding of `Task1/utils/common.py::open_file` (duplicated verbatim in
`Task1/utils.py`).

The whole body is a `try` block caught by `except Exception as e`, whose
handler evaluates `ValueError(f"Error Reading file: {e}")` *without* `raise`
and falls off the end of the function, returning `None`.  Hence:
* missing file: the `FileNotFoundError` raised inside `try` is caught and
  swallowed — returns `None`;
* unreadable / unparseable file: the `json.load` exception is caught and
  swallowed — returns `None`;
* valid JSON: returns the parsed dict.
The return type `Except PyError (Option Json)` records that no exception
escapes: every branch is `Except.ok`. -/
def open_file (fs : Fs) (file_path : String) : Except PyError (Option Json) :=
  match fs.fileAt file_path with
  | none => Except.ok none
  | some FileContent.malformed => Except.ok none
  | some (FileContent.faissIndex _) => Except.ok none
  | some (FileContent.validJson j) => Except.ok (some j)

/-! ### Task1: `summary.py` attribute normalization

`summarize_attributes` receives either the raw `Attributes` value (a list of
attribute dicts) or — after a CSV round-trip — a string, which the source
feeds to `ast.literal_eval` inside `try/except` (failure ⇒ `return None`).
`ast.literal_eval` is Python stdlib; it is modelled here by `pyParseAttrList`,
a parser for exactly the literals that can matter to `summarize_attributes`:
a Python *list* literal of dicts with single-quoted string keys and values.
Two facts make this model faithful where the theorems use it:
* a Python literal expression that is not written with a leading `[` never
  evaluates to a `list`, and the source returns `None` for every non-list
  parse result (`if not isinstance(attr_value, list): return None`), so
  collapsing "parse failed" and "parsed to a non-list" into `none` preserves
  the function's output;
* on the accepted `[{'K': 'v', ...}, ...]` shape the parser agrees with
  `ast.literal_eval`.
-/

def squote : Char := Char.ofNat 39
def lbrackCh : Char := Char.ofNat 91
def rbrackCh : Char := Char.ofNat 93
def lbraceCh : Char := Char.ofNat 123
def rbraceCh : Char := Char.ofNat 125

def skipWs (cs : List Char) : List Char :=
  cs.dropWhile (fun c => c.isWhitespace)

/-- Parse a single-quoted Python string literal without escapes; returns the
content and the remaining input. -/
def parseSingleQuoted (cs : List Char) : Option (String × List Char) :=
  match cs with
  | c :: rest =>
    if c = squote then
      let content := rest.takeWhile (fun d => d ≠ squote)
      match rest.dropWhile (fun d => d ≠ squote) with
      | d :: rest2 => if d = squote then some (String.mk content, rest2) else none
      | [] => none
    else none
  | [] => none

/-- One attribute entry as seen by the `for a in attr_value` loop: a dict
(with its string-keyed string fields) or any non-dict element, which the
loop skips (`if not isinstance(a, dict): continue`). -/
inductive AttrElem where
  | dict (fields : List (String × String))
  | nonDict (tag : Nat)
deriving DecidableEq, Repr

/-- Parse the comma-separated `'k': 'v'` pairs of a dict literal up to the
closing brace.  `fuel` bounds the recursion (callers pass the input length). -/
def parsePairsAux (fuel : Nat) (cs : List Char) :
    Option (List (String × String) × List Char) :=
  match fuel with
  | 0 => none
  | fuel' + 1 =>
    match parseSingleQuoted (skipWs cs) with
    | none => none
    | some (k, r1) =>
      match skipWs r1 with
      | c :: r2 =>
        if c = ':' then
          match parseSingleQuoted (skipWs r2) with
          | none => none
          | some (v, r3) =>
            match skipWs r3 with
            | d :: r4 =>
              if d = ',' then
                match parsePairsAux fuel' r4 with
                | some (ps, r5) => some ((k, v) :: ps, r5)
                | none => none
              else if d = rbraceCh then some ([(k, v)], r4)
              else none
            | [] => none
        else none
      | [] => none

/-- Parse one `{...}` dict literal. -/
def parseDictLit (fuel : Nat) (cs : List Char) :
    Option (List (String × String) × List Char) :=
  match skipWs cs with
  | c :: rest =>
    if c = lbraceCh then
      match skipWs rest with
      | d :: rest2 =>
        if d = rbraceCh then some ([], rest2)
        else parsePairsAux fuel rest
      | [] => none
    else none
  | [] => none

/-- Parse the comma-separated dict elements of a list literal up to the
closing bracket. -/
def parseElemsAux (fuel : Nat) (cs : List Char) :
    Option (List AttrElem × List Char) :=
  match fuel with
  | 0 => none
  | fuel' + 1 =>
    match parseDictLit fuel cs with
    | none => none
    | some (fields, r1) =>
      match skipWs r1 with
      | c :: r2 =>
        if c = ',' then
          match parseElemsAux fuel' r2 with
          | some (es, r3) => some (AttrElem.dict fields :: es, r3)
          | none => none
        else if c = rbrackCh then some ([AttrElem.dict fields], r2)
        else none
      | [] => none

/-- Model of `ast.literal_eval` composed with the source's
`isinstance(attr_value, list)` gate: `some l` iff the string is a list
literal of dicts; `none` covers both a parse error (the source's `except`
returns `None`) and a literal of any non-list shape (the source's
`if not isinstance(attr_value, list): return None`). -/
def pyParseAttrList (s : String) : Option (List AttrElem) :=
  match skipWs s.data with
  | c :: rest =>
    if c = lbrackCh then
      match skipWs rest with
      | d :: rest2 =>
        if d = rbrackCh then
          match skipWs rest2 with
          | [] => some []
          | _ :: _ => none
        else
          match parseElemsAux s.length rest with
          | some (es, r) =>
            match skipWs r with
            | [] => some es
            | _ :: _ => none
          | none => none
      | [] => none
    else none
  | [] => none

/-- Python truthiness of an optional string (`if t and txt`): present and
non-empty. -/
def truthyStr : Option String → Bool
  | none => false
  | some s => s ≠ ""

/-- The `for a in attr_value` loop of `summarize_attributes`: for every dict
element with truthy `Type` and `Text`, emit `f"{t}: {txt}"`. -/
def attrParts (l : List AttrElem) : List String :=
  l.filterMap (fun a =>
    match a with
    | AttrElem.nonDict _ => none
    | AttrElem.dict fields =>
      let t := fields.lookup "Type"
      let txt := fields.lookup "Text"
      if truthyStr t ∧ truthyStr txt then
        some (t.getD "" ++ ": " ++ txt.getD "")
      else none)

/-- The join step: `" | ".join(parts) if parts else None`. -/
def joinParts (l : List AttrElem) : Option String :=
  let parts := attrParts l
  if parts = [] then none else some (String.intercalate " | " parts)

/-- The runtime value handed to `summarize_attributes`.
`pyNone` covers Python `None` and the float-NaN branch (both `return None`);
`str` is a CSV round-tripped string; `list` the genuine attribute list;
`otherNonList` any other value, which falls through to
`if not isinstance(attr_value, list): return None`.  (The `np.ndarray`
branch only arises for pandas-internal arrays and is outside the values the
claims quantify over.) -/
inductive AttrValue where
  | pyNone
  | str (s : String)
  | list (l : List AttrElem)
  | otherNonList (tag : Nat)
deriving DecidableEq, Repr

/-- Embedding of `Task1/summary.py::summarize_attributes`. -/
def summarize_attributes : AttrValue → Option String
  | AttrValue.pyNone => none
  | AttrValue.otherNonList _ => none
  | AttrValue.list l => joinParts l
  | AttrValue.str s =>
    match pyParseAttrList s with
    | none => none
    | some l => joinParts l

/-! ### Task2: Structurer-stage idempotence check and pipeline gate -/

/-- Python `pathlib.Path(f).stem`: the name with its final suffix removed, where a
suffix only counts when the last dot sits strictly inside the name
(`0 < i < len(name) - 1`). -/
def pathStem (f : String) : String :=
  let cs := f.data
  match cs.reverse.findIdx? (fun c => c = '.') with
  | none => f
  | some j =>
    let i := cs.length - 1 - j
    if 0 < i ∧ i < cs.length - 1 then String.mk (cs.take i) else f

/-- The file name `get_structured_summaries` persists one structured record
to: `save_dir / f"{Path(file_name).stem}.json"`. -/
def structuredSaveName (file_name : String) : String :=
  pathStem file_name ++ ".json"

/-- Embedding of `Task2/utils.py::check_existing_summaries`.

`noteDirListing` is `os.listdir(note_data_path)` (`none`: the folder does not
exist, early return of empty lists); `structDirListing` is
`os.listdir(structured_data_path)` (the source creates the folder when
absent, so the caller passes `[]` in that case).  It filters `.csv` files,
maps existing `.json` names through `f.replace("_structured.json", "")`, and
partitions CSV *stems* by membership in that set.  Returns
`(to_summarize, already_summarized)`. -/
def check_existing_summaries (noteDirListing : Option (List String))
    (structDirListing : List String) : List String × List String :=
  match noteDirListing with
  | none => ([], [])
  | some files =>
    let all_files := files.filter (fun f => pyEndsWith (pyLower f) ".csv")
    let existing_summaries :=
      (structDirListing.filter (fun f => pyEndsWith (pyLower f) ".json")).map
        (fun f => pyReplace f "_structured.json" "")
    let csv_stems := all_files.map pathStem
    (csv_stems.filter (fun s => s ∉ existing_summaries),
     csv_stems.filter (fun s => s ∈ existing_summaries))

/-- What one `SummarizerPipeline.summarize_data` run does, abstracted to the
branch it takes. -/
inductive SummarizerAction where
  | readExisting
  | runLLM
deriving DecidableEq, Repr

/-- Embedding of the gate in
`Task2/summarizer_pipeline.py::SummarizerPipeline.summarize_data`: when
`check_existing_summaries()` reports an empty `to_summarize`, the run only
reads the existing structured JSON files (`readExisting`, no LLM call, no
write); otherwise it calls `summarize` + `get_structured_summaries`, which
invokes the LLM and rewrites `data/structured_json/<stem>.json` files
(`runLLM`). -/
def summarize_data (noteDirListing : Option (List String))
    (structDirListing : List String) : SummarizerAction :=
  if (check_existing_summaries noteDirListing structDirListing).1 = [] then
    SummarizerAction.readExisting
  else
    SummarizerAction.runLLM

/-! ### Task3: FAISS retriever and the build pipeline -/

def faiss_index_default_path : String := "Task3/data/faiss_index"

/-- Embedding of the `FAISSRetriever` object: its configured `index_path`
and the in-memory store `self.db` (`none` = not yet built/loaded). -/
structure FAISSRetriever where
  index_path : String
  db : Option (List Doc)
deriving DecidableEq, Repr

/-- Embedding of `FAISSRetriever.__init__`: stores the path, sets `self.db = None`, and
`os.makedirs(index_path, exist_ok=True)` — the index *directory* exists from
construction on, whether or not an index was ever persisted into it. -/
def FAISSRetriever.init (fs : Fs)
    (index_path : String := faiss_index_default_path) : FAISSRetriever × Fs :=
  (⟨index_path, none⟩, { fs with dirs := index_path :: fs.dirs })

/-- Collaborator `FAISS.load_local`: reads the persisted index files inside
the directory; when they are absent it raises its own error (modelled as
`PyError.faissLoad`), not the `FileNotFoundError` of `load_index`'s guard. -/
def FAISS.load_local (fs : Fs) (path : String) : Except PyError (List Doc) :=
  match fs.fileAt (path ++ "/index.faiss") with
  | some (FileContent.faissIndex docs) => Except.ok docs
  | _ => Except.error (PyError.faissLoad ("could not open " ++ path ++ "/index.faiss"))

/-- Collaborator `db.save_local`: persists the index files into the
directory. -/
def FAISS.save_local (fs : Fs) (docs : List Doc) (path : String) : Fs :=
  { fs with files := (path ++ "/index.faiss", FileContent.faissIndex docs) :: fs.files }

/-- Embedding of `FAISSRetriever.load_index`: raises `FileNotFoundError`
iff `os.path.exists(self.index_path)` is false, otherwise defers to
`FAISS.load_local`. -/
def FAISSRetriever.load_index (fs : Fs) (r : FAISSRetriever) :
    Except PyError FAISSRetriever :=
  if ¬ fs.pathExists r.index_path then
    Except.error (PyError.fileNotFound ("No FAISS index found at " ++ r.index_path))
  else
    match FAISS.load_local fs r.index_path with
    | Except.ok docs => Except.ok { r with db := some docs }
    | Except.error e => Except.error e

/-- Observable side effects of the retriever pipeline. -/
inductive RetrieverEffect where
  | makedirs (path : String)
  | computeEmbeddings
  | saveLocal (path : String)
  | loadLocal (path : String)
deriving DecidableEq, Repr

/-- Embedding of `FAISSRetriever.build_index`: raises `ValueError` on an
empty document list, otherwise `FAISS.from_documents` (embedding calls) then
`save_local` — the only place the vector store is persisted. -/
def FAISSRetriever.build_index (fs : Fs) (r : FAISSRetriever)
    (documents : List Doc) :
    Except PyError (FAISSRetriever × Fs × List RetrieverEffect) :=
  if documents = [] then
    Except.error (PyError.valueError "No documents provided to build the index.")
  else
    Except.ok ({ r with db := some documents },
               FAISS.save_local fs documents r.index_path,
               [RetrieverEffect.computeEmbeddings, RetrieverEffect.saveLocal r.index_path])

/-- Embedding of `FAISSRetriever.retrieve`: when `self.db is None` it first
calls `self.load_index()`, whose exception propagates; with a store in hand
it runs `similarity_search` (the `search` collaborator). -/
def FAISSRetriever.retrieve (fs : Fs)
    (search : List Doc → String → Nat → List Doc) (r : FAISSRetriever)
    (query : String) (top_k : Nat := 1) :
    Except PyError (FAISSRetriever × List Doc) :=
  match r.db with
  | some db => Except.ok (r, search db query top_k)
  | none =>
    match FAISSRetriever.load_index fs r with
    | Except.error e => Except.error e
    | Except.ok r2 =>
      match r2.db with
      | some db => Except.ok (r2, search db query top_k)
      | none => Except.ok (r2, [])

/-- Embedding of
`Task3/pipelines/build_retriever.py::CreateRetrieverPipeline.create_documents_from_json`
(a static method of `FAISSRetriever` used by the pipeline): one `Document`
per `data_dict` entry, with `page_content = data[filename]` (a `KeyError`
when the key is missing, modelled by `none`) and metadata
`source_file = filename`, `patient_name = content.get("patient")`. -/
def create_documents_from_json (data_dict : List (String × Json))
    (data : List (String × String)) : Option (List Doc) :=
  data_dict.mapM (fun p =>
    (data.lookup p.1).map (fun txt => Doc.mk txt p.1 (p.2.lookup "patient")))

/-- Embedding of
`Task3/pipelines/build_retriever.py::CreateRetrieverPipeline.main_fn`.

`build = True` branch: construct `FAISSRetriever()` (its `__init__` runs
`makedirs`), call `create_documents_from_json`, and return the retriever;
when that call succeeds its returned documents are discarded by the source,
and when it raises (a `data_dict` key absent from `data`, the `none` case)
the `except` block constructs a `ValueError` without raising it and the
method returns `None`.  Either way it never calls `build_index`, so no
embedding is computed and nothing is saved.
`build = False` branch: construct and `load_index()`, whose exception is
likewise swallowed into a `None` return.
Returns the value, the resulting filesystem, and the effect trace. -/
def main_fn (fs : Fs) (data_dict : List (String × Json))
    (data : List (String × String)) (build : Bool) :
    Option FAISSRetriever × Fs × List RetrieverEffect :=
  if build then
    let (r, fs1) := FAISSRetriever.init fs
    match create_documents_from_json data_dict data with
    | some _documents =>
      (some r, fs1, [RetrieverEffect.makedirs r.index_path])
    | none =>
      (none, fs1, [RetrieverEffect.makedirs r.index_path])
  else
    let (r, fs1) := FAISSRetriever.init fs
    match FAISSRetriever.load_index fs1 r with
    | Except.ok r2 =>
      (some r2, fs1, [RetrieverEffect.makedirs r.index_path,
                      RetrieverEffect.loadLocal r.index_path])
    | Except.error _ =>
      (none, fs1, [RetrieverEffect.makedirs r.index_path,
                   RetrieverEffect.loadLocal r.index_path])

/-- Embedding of the error policy of `Task3/main.py::ask_query`
(`POST /generate`): the graph invocation is wrapped in `try/except`, and any
exception becomes `HTTPException(status_code=500)`; a successful run returns
status 200 with the answer. -/
def ask_query_status (result : Except PyError String) : Nat :=
  match result with
  | Except.ok _ => 200
  | Except.error _ => 500

/-- Whether a persisted FAISS index is present inside `path` (the index file
written by `save_local`). -/
def Fs.hasFaissIndexAt (fs : Fs) (path : String) : Bool :=
  match fs.fileAt (path ++ "/index.faiss") with
  | some (FileContent.faissIndex _) => true
  | _ => false

/-- Discriminator: is this error the `FileNotFoundError` raised by
`load_index`'s missing-directory guard? -/
def PyError.isFileNotFound : PyError → Bool
  | PyError.fileNotFound _ => true
  | _ => false

/-!
## Theorems

Helper lemmas first, then one theorem per claim (`C1`..`C10`), each with a
witness when its statement carries a hypothesis.
-/

theorem enumerateFrom_map_fst (l : List PyObj) :
    ∀ i, (enumerateFrom i l).map Prod.fst = List.range' i l.length := by
  induction l with
  | nil => intro i; rfl
  | cons x xs ih =>
    intro i
    simp [enumerateFrom, List.range'_succ, ih (i + 1)]

theorem enumerateFrom_map_snd (l : List PyObj) :
    ∀ i, (enumerateFrom i l).map Prod.snd = l := by
  induction l with
  | nil => intro i; rfl
  | cons x xs ih =>
    intro i
    simp [enumerateFrom, ih (i + 1)]

theorem enumerateFrom_length (l : List PyObj) :
    ∀ i, (enumerateFrom i l).length = l.length := by
  induction l with
  | nil => intro i; rfl
  | cons x xs ih =>
    intro i
    simp [enumerateFrom, ih (i + 1)]

theorem enumerateFrom_append_getLast (x : PyObj) (l : List PyObj) :
    ∀ i, (enumerateFrom i (l ++ [x])).getLast? = some (i + l.length, x) := by
  induction l with
  | nil => intro i; rfl
  | cons y ys ih =>
    intro i
    have h2 := ih (i + 1)
    cases hys : ys ++ [x] with
    | nil => simp at hys
    | cons z zs =>
      rw [hys] at h2
      rw [List.cons_append, hys]
      simp only [enumerateFrom] at h2 ⊢
      rw [List.getLast?_cons_cons, h2]
      simp only [List.length_cons, Option.some.injEq, Prod.mk.injEq, and_true]
      omega

/-- C5: for every input `recent` (a mapping, or any non-mapping value, which
is treated as empty), strings `question`/`answer` and `max = M ≥ 1`,
`update_recent_chats` returns a mapping whose keys are exactly `1..len` with
`len ≤ M`, whose values are the insertion-ordered suffix of the prior turns
followed by the newly appended trimmed `{question, answer}` pair, and whose
entry at the largest key is that new pair. -/
theorem update_recent_chats_window (recent : Option (List PyObj)) (q a : String)
    (M : Nat) (hM : 1 ≤ M) :
    (update_recent_chats recent q a M).map Prod.fst
        = List.range' 1 (update_recent_chats recent q a M).length ∧
    (update_recent_chats recent q a M).length ≤ M ∧
    (update_recent_chats recent q a M).map Prod.snd
        = (recent.getD [] ++ [PyObj.chatDict (pyStrip q) (pyStrip a)]).drop
            ((recent.getD []).length + 1 - M) ∧
    (update_recent_chats recent q a M).getLast?
        = some ((update_recent_chats recent q a M).length,
                PyObj.chatDict (pyStrip q) (pyStrip a)) := by
  have hM0 : M ≠ 0 := by omega
  have hdef : update_recent_chats recent q a M
      = enumerateFrom 1 ((recent.getD [] ++ [PyObj.chatDict (pyStrip q) (pyStrip a)]).drop
          ((recent.getD [] ++ [PyObj.chatDict (pyStrip q) (pyStrip a)]).length - M)) := by
    simp only [update_recent_chats, if_neg hM0]
  have hk : (recent.getD [] ++ [PyObj.chatDict (pyStrip q) (pyStrip a)]).length - M
      ≤ (recent.getD []).length := by
    simp only [List.length_append, List.length_singleton]
    omega
  have hkept : (recent.getD [] ++ [PyObj.chatDict (pyStrip q) (pyStrip a)]).drop
        ((recent.getD [] ++ [PyObj.chatDict (pyStrip q) (pyStrip a)]).length - M)
      = (recent.getD []).drop
          ((recent.getD [] ++ [PyObj.chatDict (pyStrip q) (pyStrip a)]).length - M)
        ++ [PyObj.chatDict (pyStrip q) (pyStrip a)] := by
    rw [List.drop_append_eq_append_drop, Nat.sub_eq_zero_of_le hk, List.drop_zero]
  refine ⟨?_, ?_, ?_, ?_⟩
  · rw [hdef, enumerateFrom_map_fst, enumerateFrom_length]
  · rw [hdef, enumerateFrom_length, List.length_drop]
    simp only [List.length_append, List.length_singleton]
    omega
  · rw [hdef, enumerateFrom_map_snd]
    simp only [List.length_append, List.length_singleton]
  · rw [hdef, hkept, enumerateFrom_append_getLast, enumerateFrom_length]
    simp only [List.length_append, List.length_singleton, Option.some.injEq,
      Prod.mk.injEq, and_true]
    omega

/-- Witness for C5 at `recent = {1: {q1, a1}}`, `question = "q2"`,
`answer = "a2"`, `max = 3`. -/
theorem update_recent_chats_window_witness :
    1 ≤ 3 ∧
    ((update_recent_chats (some [PyObj.chatDict "q1" "a1"]) "q2" "a2" 3).map Prod.fst
        = List.range' 1
            (update_recent_chats (some [PyObj.chatDict "q1" "a1"]) "q2" "a2" 3).length ∧
     (update_recent_chats (some [PyObj.chatDict "q1" "a1"]) "q2" "a2" 3).length ≤ 3 ∧
     (update_recent_chats (some [PyObj.chatDict "q1" "a1"]) "q2" "a2" 3).map Prod.snd
        = ((some [PyObj.chatDict "q1" "a1"] : Option (List PyObj)).getD []
            ++ [PyObj.chatDict (pyStrip "q2") (pyStrip "a2")]).drop
            (((some [PyObj.chatDict "q1" "a1"] : Option (List PyObj)).getD []).length + 1 - 3) ∧
     (update_recent_chats (some [PyObj.chatDict "q1" "a1"]) "q2" "a2" 3).getLast?
        = some ((update_recent_chats (some [PyObj.chatDict "q1" "a1"]) "q2" "a2" 3).length,
                PyObj.chatDict (pyStrip "q2") (pyStrip "a2"))) :=
  ⟨by decide,
   update_recent_chats_window (some [PyObj.chatDict "q1" "a1"]) "q2" "a2" 3 (by decide)⟩

/-- C1 (failing-input evaluation): on a state whose conversation already
holds the turn `{1: {"q1", "a1"}}`, `answer_generation` produces the
conversation `{1: {"q2", "a2"}}` — the prior turn is *dropped*, because the
source passes `state.get("messages", [])` (always the non-mapping `[]`, as
`"messages"` is not a key of `AgentState`) to `update_recent_chats` instead
of the current conversation, so the claimed
`{1: {"q1", "a1"}, 2: {"q2", "a2"}}` is not produced. -/
theorem answer_generation_drops_history :
    answer_generation
        { user_query := "u"
          rephrased_question := some "q2"
          conversation := some [(1, PyObj.chatDict "q1" "a1")]
          tool_flag := false
          documents := none
          proceed_to_generate := false
          generated_answer := none } "a2"
      = some
        { user_query := "u"
          rephrased_question := some "q2"
          conversation := some [(1, PyObj.chatDict "q2" "a2")]
          tool_flag := false
          documents := none
          proceed_to_generate := false
          generated_answer := some "a2" } := by
  decide

/-- C2 (failing-input evaluation): the Structurer stage persists the record
for `image_1_summary.csv` under exactly
`structuredSaveName "image_1_summary.csv" = "image_1_summary.json"`, yet an
immediate rerun with that file on disk still classifies the stem as
`to_summarize` — the check strips the suffix `"_structured.json"`, which
never occurs in the `<stem>.json` names the writer produces — so
`summarize_data` takes the LLM branch instead of being a no-op. -/
theorem check_existing_summaries_rerun_not_noop :
    structuredSaveName "image_1_summary.csv" = "image_1_summary.json" ∧
    check_existing_summaries (some ["image_1_summary.csv"]) ["image_1_summary.json"]
        = (["image_1_summary"], []) ∧
    summarize_data (some ["image_1_summary.csv"]) ["image_1_summary.json"]
        = SummarizerAction.runLLM := by
  decide

/-- C3: for every source directory listing / upstream artifact and every
(possibly absent) downstream artifact, the work-set diffs partition the
source key set `S` into `to_process = S \ D` and `already_processed = S ∩ D`
(with `D = ∅` when the downstream artifact is absent, via `Option.getD`), and
the text-consuming stage additionally returns the upstream text map
restricted exactly to `to_process`. -/
theorem work_set_diff_partitions (dirListing : List String)
    (processed : Option Json) (td : Json) (comprehend : Option Json) :
    (∀ img, img ∈ (check_existing_extractions dirListing processed).1 ↔
        (img ∈ dirListing.filter isAllowedImage ∧
         img ∉ (processed.getD []).map Prod.fst)) ∧
    (∀ img, img ∈ (check_existing_extractions dirListing processed).2 ↔
        (img ∈ dirListing.filter isAllowedImage ∧
         img ∈ (processed.getD []).map Prod.fst)) ∧
    (∀ k, k ∈ (check_existing_comprehend (some td) comprehend).to_analyze ↔
        (k ∈ td.map Prod.fst ∧ k ∉ (comprehend.getD []).map Prod.fst)) ∧
    (∀ k, k ∈ (check_existing_comprehend (some td) comprehend).already_analyzed ↔
        (k ∈ td.map Prod.fst ∧ k ∈ (comprehend.getD []).map Prod.fst)) ∧
    (∀ k v, (k, v) ∈ (check_existing_comprehend (some td) comprehend).texts_to_analyze ↔
        (k ∈ (check_existing_comprehend (some td) comprehend).to_analyze ∧
         td.lookup k = some v)) := by
  refine ⟨?_, ?_, ?_, ?_, ?_⟩
  · intro img
    simp [check_existing_extractions, List.mem_filter]
    tauto
  · intro img
    simp [check_existing_extractions, List.mem_filter]
    tauto
  · intro k
    simp [check_existing_comprehend, List.mem_filter]
  · intro k
    simp [check_existing_comprehend, List.mem_filter]
  · intro k v
    simp only [check_existing_comprehend, List.mem_filterMap, Option.map_eq_some']
    constructor
    · rintro ⟨a, ha, w, hw, heq⟩
      cases heq
      exact ⟨ha, hw⟩
    · rintro ⟨hk, hv⟩
      exact ⟨k, hk, v, hv, rfl⟩

/-- C4: on a state whose `documents` is a list, `doc_grader` retains exactly
the documents whose grade, stripped and lowercased, is `"yes"` (in order),
sets `proceed_to_generate` iff at least one document was retained, and the
router (modelled from §4.9 of the spec, its module being absent from the
sources) chooses `answer_generation` exactly when at least one document was
retained. -/
theorem doc_grader_router_gate (state : AgentState) (docs : List Doc)
    (grade : Doc → String) (h : state.documents = some docs) :
    ∃ s2, doc_grader state grade = some s2 ∧
      s2.documents = some (docs.filter (fun d => pyLower (pyStrip (grade d)) = "yes")) ∧
      (s2.proceed_to_generate = true ↔
        docs.filter (fun d => pyLower (pyStrip (grade d)) = "yes") ≠ []) ∧
      (no_relevant_docs s2 = "generate_answer" ↔
        docs.filter (fun d => pyLower (pyStrip (grade d)) = "yes") ≠ []) := by
  have hg : doc_grader state grade
      = some { state with
          documents := some (docs.filter (fun d => pyLower (pyStrip (grade d)) = "yes"))
          proceed_to_generate :=
            (docs.filter (fun d => pyLower (pyStrip (grade d)) = "yes")).length > 0 } := by
    simp only [doc_grader, h]
  refine ⟨_, hg, rfl, ?_, ?_⟩
  · simp [List.length_pos]
  · by_cases hr : docs.filter (fun d => pyLower (pyStrip (grade d)) = "yes") = []
    · simp [no_relevant_docs, hr]
    · have hlen : 0 < (docs.filter (fun d => pyLower (pyStrip (grade d)) = "yes")).length :=
        List.length_pos.mpr hr
      simp [no_relevant_docs, hr, hlen]

/-- Witness for C4 at a one-document state whose grade is `" Yes "`. -/
theorem doc_grader_router_gate_witness :
    (({ user_query := "u", rephrased_question := some "q",
        conversation := none, tool_flag := false,
        documents := some [Doc.mk "c" "a.png" (some "John Doe")],
        proceed_to_generate := false, generated_answer := none } : AgentState).documents
      = some [Doc.mk "c" "a.png" (some "John Doe")]) ∧
    (∃ s2, doc_grader
        { user_query := "u", rephrased_question := some "q",
          conversation := none, tool_flag := false,
          documents := some [Doc.mk "c" "a.png" (some "John Doe")],
          proceed_to_generate := false, generated_answer := none }
        (fun _ => " Yes ") = some s2 ∧
      s2.documents = some ([Doc.mk "c" "a.png" (some "John Doe")].filter
        (fun d => pyLower (pyStrip ((fun _ => " Yes ") d)) = "yes")) ∧
      (s2.proceed_to_generate = true ↔
        [Doc.mk "c" "a.png" (some "John Doe")].filter
          (fun d => pyLower (pyStrip ((fun _ => " Yes ") d)) = "yes") ≠ []) ∧
      (no_relevant_docs s2 = "generate_answer" ↔
        [Doc.mk "c" "a.png" (some "John Doe")].filter
          (fun d => pyLower (pyStrip ((fun _ => " Yes ") d)) = "yes") ≠ [])) :=
  ⟨rfl, doc_grader_router_gate _ [Doc.mk "c" "a.png" (some "John Doe")]
      (fun _ => " Yes ") rfl⟩

/-- C6 (divergence evaluation): for every starting filesystem and ingest
output, the build path `main_fn(build=True)` writes no file, performs no
embedding computation and no `save_local` — it never invokes `build_index` —
and its return value is `None` when `create_documents_from_json` raises
(the swallowed exception) and otherwise a retriever whose `db` is still
`None`; by contrast `build_index` itself (final conjunct) is exactly the
operation that would have embedded the two documents and persisted the
index. -/
theorem main_fn_build_never_persists (fs : Fs) (data_dict : List (String × Json))
    (data : List (String × String)) :
    (main_fn fs data_dict data true).2.1.files = fs.files ∧
    RetrieverEffect.computeEmbeddings ∉ (main_fn fs data_dict data true).2.2 ∧
    (∀ p, RetrieverEffect.saveLocal p ∉ (main_fn fs data_dict data true).2.2) ∧
    (main_fn fs data_dict data true).1
      = (create_documents_from_json data_dict data).map
          (fun _ => (⟨faiss_index_default_path, none⟩ : FAISSRetriever)) ∧
    (∀ d1 d2 : Doc,
      FAISSRetriever.build_index (main_fn fs data_dict data true).2.1
          ⟨faiss_index_default_path, none⟩ [d1, d2]
        = Except.ok (⟨faiss_index_default_path, some [d1, d2]⟩,
            FAISS.save_local (main_fn fs data_dict data true).2.1 [d1, d2]
              faiss_index_default_path,
            [RetrieverEffect.computeEmbeddings,
             RetrieverEffect.saveLocal faiss_index_default_path])) := by
  have hfs1 : (main_fn fs data_dict data true).2.1
      = { fs with dirs := faiss_index_default_path :: fs.dirs } := by
    cases hdocs : create_documents_from_json data_dict data <;>
      simp [main_fn, FAISSRetriever.init, hdocs]
  have heff : (main_fn fs data_dict data true).2.2
      = [RetrieverEffect.makedirs faiss_index_default_path] := by
    cases hdocs : create_documents_from_json data_dict data <;>
      simp [main_fn, FAISSRetriever.init, hdocs]
  refine ⟨?_, ?_, ?_, ?_, ?_⟩
  · rw [hfs1]
  · rw [heff]
    simp
  · intro p
    rw [heff]
    simp
  · cases hdocs : create_documents_from_json data_dict data <;>
      simp [main_fn, FAISSRetriever.init, hdocs]
  · intro d1 d2
    rw [hfs1]
    simp [FAISSRetriever.build_index]

/-- C7: `query_rewriter` always leaves `generated_answer` reset to null and
`conversation` initialized to `{}` when it was absent (unchanged otherwise),
and on an LLM failure (`llm = none`, the swallowed exception) it returns —
rather than propagating — with `rephrased_question` equal to the original
`user_query` and `tool_flag` false. -/
theorem query_rewriter_initializes_and_degrades (state : AgentState)
    (llm : Option QueryRewrite) :
    (query_rewriter state llm).generated_answer = none ∧
    (query_rewriter state llm).conversation = some (state.conversation.getD []) ∧
    (query_rewriter state none).rephrased_question = some state.user_query ∧
    (query_rewriter state none).tool_flag = false := by
  cases llm <;> simp [query_rewriter]

/-- C8 (counterexample): for the attribute list
`[{'Type': 'DOSAGE', 'Text': '40 mg'}]` the normalizer persists
`"DOSAGE: 40 mg"`, but feeding that string back yields `None` — not the same
string — because the pipe-joined rendering is not a parseable Python
literal, so `ast.literal_eval` fails and the tolerance branch nulls it. -/
theorem summarize_attributes_not_identity_on_persisted :
    summarize_attributes
        (AttrValue.list [AttrElem.dict [("Type", "DOSAGE"), ("Text", "40 mg")]])
      = some "DOSAGE: 40 mg" ∧
    summarize_attributes (AttrValue.str "DOSAGE: 40 mg") = none ∧
    summarize_attributes (AttrValue.str "DOSAGE: 40 mg") ≠ some "DOSAGE: 40 mg" := by
  decide

/-- C8 (amended): for every attribute list whose persisted string `s`
contains no `[` character (true of every `"TYPE: text | ..."` rendering whose
types and texts avoid Python bracket syntax), re-normalizing yields
`summarize_attributes(s) = None` — the round-trip nulls the column rather
than reproducing it, since a Python literal that is not written with a
leading `[` never evaluates to a list. -/
theorem summarize_attributes_roundtrip_null (l : List AttrElem) (s : String)
    (h1 : summarize_attributes (AttrValue.list l) = some s)
    (h2 : lbrackCh ∉ s.data) :
    summarize_attributes (AttrValue.str s) = none := by
  have hp : pyParseAttrList s = none := by
    unfold pyParseAttrList
    cases hcs : skipWs s.data with
    | nil => rfl
    | cons c rest =>
      have hcmem : c ∈ s.data := by
        have hsub : List.Sublist (skipWs s.data) s.data :=
          List.dropWhile_sublist _
        exact hsub.subset (hcs ▸ List.mem_cons_self c rest)
      have hcne : ¬ c = lbrackCh := fun hc => h2 (hc ▸ hcmem)
      simp [hcne]
  simp [summarize_attributes, hp]

/-- Witness for C8 (amended) at the list
`[{'Type': 'DOSAGE', 'Text': '40 mg'}]`. -/
theorem summarize_attributes_roundtrip_null_witness :
    summarize_attributes
        (AttrValue.list [AttrElem.dict [("Type", "DOSAGE"), ("Text", "40 mg")]])
      = some "DOSAGE: 40 mg" ∧
    lbrackCh ∉ "DOSAGE: 40 mg".data ∧
    summarize_attributes (AttrValue.str "DOSAGE: 40 mg") = none :=
  ⟨by decide, by decide,
   summarize_attributes_roundtrip_null
     [AttrElem.dict [("Type", "DOSAGE"), ("Text", "40 mg")]] "DOSAGE: 40 mg"
     (by decide) (by decide)⟩

/-- C9 (counterexample): starting from an empty filesystem, constructing
`FAISSRetriever()` and calling `retrieve` does auto-load, but the failure is
the FAISS loader's own error on the (pre-created, empty) index directory —
`load_index`'s `FileNotFoundError` (`IndexAbsent`) branch does not fire,
because `__init__`'s `os.makedirs` makes its `os.path.exists` guard true. -/
theorem retrieve_missing_index_error_kind :
    FAISSRetriever.retrieve (FAISSRetriever.init ⟨[], []⟩).2 (fun db _ _ => db)
        (FAISSRetriever.init ⟨[], []⟩).1 "q" 1
      = Except.error (PyError.faissLoad
          "could not open Task3/data/faiss_index/index.faiss") ∧
    (match FAISSRetriever.retrieve (FAISSRetriever.init ⟨[], []⟩).2
        (fun db _ _ => db) (FAISSRetriever.init ⟨[], []⟩).1 "q" 1 with
     | Except.error e => PyError.isFileNotFound e
     | Except.ok _ => true) = false := by
  exact ⟨rfl, rfl⟩

/-- C9 (amended): whenever no index was ever persisted into the index
directory, `retrieve` on a freshly constructed retriever (`db = None`)
auto-loads and fails — never with `load_index`'s `FileNotFoundError` guard,
which `__init__`'s `makedirs` renders unreachable, but with the FAISS
loader's error on the empty directory; the request is still answered with a
5xx-class failure (`ask_query_status … = 500`) rather than an empty result. -/
theorem retrieve_missing_index_faiss_error (fs : Fs) (path q : String) (k : Nat)
    (search : List Doc → String → Nat → List Doc)
    (h : (FAISSRetriever.init fs path).2.hasFaissIndexAt path = false) :
    FAISSRetriever.retrieve (FAISSRetriever.init fs path).2 search
        (FAISSRetriever.init fs path).1 q k
      = Except.error (PyError.faissLoad
          ("could not open " ++ path ++ "/index.faiss")) ∧
    (match FAISSRetriever.retrieve (FAISSRetriever.init fs path).2 search
        (FAISSRetriever.init fs path).1 q k with
     | Except.error e => PyError.isFileNotFound e
     | Except.ok _ => true) = false ∧
    (FAISSRetriever.retrieve (FAISSRetriever.init fs path).2 search
        (FAISSRetriever.init fs path).1 q k).isOk = false ∧
    ask_query_status (Except.error (PyError.faissLoad
        ("could not open " ++ path ++ "/index.faiss"))) = 500 := by
  have hload : FAISS.load_local (FAISSRetriever.init fs path).2 path
      = Except.error (PyError.faissLoad
          ("could not open " ++ path ++ "/index.faiss")) := by
    unfold Fs.hasFaissIndexAt at h
    unfold FAISS.load_local
    cases hfa : ((FAISSRetriever.init fs path).2).fileAt (path ++ "/index.faiss") with
    | none => rfl
    | some content =>
      cases content with
      | validJson j => rfl
      | malformed => rfl
      | faissIndex docs =>
        rw [hfa] at h
        exact absurd h (by simp)
  have hexists : ((FAISSRetriever.init fs path).2).pathExists path = true := by
    simp [FAISSRetriever.init, Fs.pathExists]
  have hmain : FAISSRetriever.retrieve (FAISSRetriever.init fs path).2 search
      (FAISSRetriever.init fs path).1 q k
      = Except.error (PyError.faissLoad
          ("could not open " ++ path ++ "/index.faiss")) := by
    unfold FAISSRetriever.retrieve
    have hdb : (FAISSRetriever.init fs path).1.db = none := rfl
    have hpath : (FAISSRetriever.init fs path).1.index_path = path := rfl
    rw [hdb]
    unfold FAISSRetriever.load_index
    rw [hpath, hexists]
    simp [hload]
  refine ⟨hmain, ?_, ?_, rfl⟩
  · rw [hmain]
    rfl
  · rw [hmain]
    rfl

/-- Witness for C9 (amended) on a filesystem holding one unrelated JSON file
and no persisted index. -/
theorem retrieve_missing_index_faiss_error_witness :
    ((FAISSRetriever.init ⟨[], [("unrelated.json", FileContent.validJson [])]⟩
        "Task3/data/faiss_index").2.hasFaissIndexAt "Task3/data/faiss_index" = false) ∧
    (FAISSRetriever.retrieve
        (FAISSRetriever.init ⟨[], [("unrelated.json", FileContent.validJson [])]⟩
          "Task3/data/faiss_index").2 (fun db _ _ => db)
        (FAISSRetriever.init ⟨[], [("unrelated.json", FileContent.validJson [])]⟩
          "Task3/data/faiss_index").1 "query" 1
      = Except.error (PyError.faissLoad
          ("could not open " ++ "Task3/data/faiss_index" ++ "/index.faiss")) ∧
    (match FAISSRetriever.retrieve
        (FAISSRetriever.init ⟨[], [("unrelated.json", FileContent.validJson [])]⟩
          "Task3/data/faiss_index").2 (fun db _ _ => db)
        (FAISSRetriever.init ⟨[], [("unrelated.json", FileContent.validJson [])]⟩
          "Task3/data/faiss_index").1 "query" 1 with
     | Except.error e => PyError.isFileNotFound e
     | Except.ok _ => true) = false ∧
    (FAISSRetriever.retrieve
        (FAISSRetriever.init ⟨[], [("unrelated.json", FileContent.validJson [])]⟩
          "Task3/data/faiss_index").2 (fun db _ _ => db)
        (FAISSRetriever.init ⟨[], [("unrelated.json", FileContent.validJson [])]⟩
          "Task3/data/faiss_index").1 "query" 1).isOk = false ∧
    ask_query_status (Except.error (PyError.faissLoad
        ("could not open " ++ "Task3/data/faiss_index" ++ "/index.faiss"))) = 500) :=
  ⟨by decide,
   retrieve_missing_index_faiss_error
     ⟨[], [("unrelated.json", FileContent.validJson [])]⟩
     "Task3/data/faiss_index" "query" 1 (fun db _ _ => db) (by decide)⟩

/-- C10: for every path whose file exists but whose content cannot be read
or parsed as JSON, `open_file` returns `None` instead of raising — the
`ValueError` in its handler is constructed but never raised, so the result
is `Except.ok none`, never an `Except.error`. -/
theorem open_file_swallows_parse_errors (fs : Fs) (file_path : String)
    (h : fs.fileAt file_path = some FileContent.malformed) :
    open_file fs file_path = Except.ok none := by
  simp [open_file, h]

/-- Witness for C10 at a filesystem whose `processed_text.json` exists but is
malformed. -/
theorem open_file_swallows_parse_errors_witness :
    (Fs.fileAt
        ⟨[], [("data/processed_images/processed_text.json", FileContent.malformed)]⟩
        "data/processed_images/processed_text.json" = some FileContent.malformed) ∧
    open_file
        ⟨[], [("data/processed_images/processed_text.json", FileContent.malformed)]⟩
        "data/processed_images/processed_text.json" = Except.ok none :=
  ⟨by decide,
   open_file_swallows_parse_errors
     ⟨[], [("data/processed_images/processed_text.json", FileContent.malformed)]⟩
     "data/processed_images/processed_text.json" (by decide)⟩

end AIDev
